import Mathlib

/-!
Verification development for the `ola` discovery-client and command-router core.

The SLP discovery client (`SLPClientCore`) definitions below are translated from
`src/tools/slp/SLPClientCore.cpp`.  The RDM command router (`RootEndpoint`) is
present in the sources only as a header, so its dispatch behaviour is modelled
from the specification (each such definition says so in its doc comment).

Callbacks in the C++ source are heap-allocated single-use objects that are either
run or deleted; in the embedding an operation returns an explicit effect record
recording whether the callback was invoked (and with which arguments) and whether
it was released.  Raw pointers are modelled by liveness flags: `liveChannel` /
`liveStub` say whether a heap allocation made for the channel / stub is currently
live (allocated and not freed).
-/

namespace OlaSpec

/-- A discovered SLP service: URL plus remaining lifetime in seconds
(`SLPService` in the C++ source; lifetime is a `uint16_t`, carried as `Nat`
since the code never computes on it). -/
structure SLPService where
  url : String
  lifetime : Nat
  deriving Repr, DecidableEq

/-- One `url_entry` of a protobuf `ServiceReply` message: `{url, lifetime}`. -/
structure URLEntry where
  url : String
  lifetime : Nat
  deriving Repr, DecidableEq

/-- The protobuf `ServiceRegistration` request message built by
`SLPClientCore::GenericRegisterService`: url, repeated scope, lifetime,
persistent flag. -/
structure ServiceRegistration where
  url : String
  scope : List String
  lifetime : Nat
  persistent : Bool
  deriving Repr, DecidableEq

/-- The protobuf `ServiceDeRegistration` request message built by
`SLPClientCore::DeRegisterService`: url and repeated scope. -/
structure ServiceDeRegistration where
  url : String
  scope : List String
  deriving Repr, DecidableEq

/-- The protobuf `ServiceRequest` message built by `SLPClientCore::FindService`:
service type and repeated scope. -/
structure ServiceRequest where
  service_type : String
  scope : List String
  deriving Repr, DecidableEq

/-- The state of an `SLPClientCore` instance.  `m_channel` / `m_stub` record
whether the member pointers are non-null; `liveChannel` / `liveStub` record
whether the pointed-to allocations are currently live (not yet freed). -/
structure SLPClientCore where
  m_connected : Bool
  m_channel : Bool
  m_stub : Bool
  liveChannel : Bool
  liveStub : Bool
  deriving Repr, DecidableEq

/-- The constructor `SLPClientCore::SLPClientCore`: both pointers null,
disconnected. -/
def SLPClientCore.init : SLPClientCore :=
  ⟨false, false, false, false, false⟩

/-- `SLPClientCore::Setup`, translated line by line.  `chOk` / `stOk` are the
allocation oracles for `new StreamRpcChannel` and `new SLPService_Stub` (the
code checks both results against null).  Returns the C++ return value paired
with the post-state. -/
def Setup (st : SLPClientCore) (chOk stOk : Bool) : Bool × SLPClientCore :=
  if st.m_connected then
    (false, st)
  else
    -- m_channel = new StreamRpcChannel(NULL, m_descriptor);
    let st1 : SLPClientCore :=
      { st with m_channel := chOk, liveChannel := chOk }
    if !chOk then
      (false, st1)
    else
      -- m_stub = new SLPService_Stub(m_channel);
      let st2 : SLPClientCore :=
        { st1 with m_stub := stOk, liveStub := stOk }
      if !stOk then
        -- delete m_channel; (the member pointer itself is not reset)
        (false, { st2 with liveChannel := false })
      else
        (true, { st2 with m_connected := true })

/-- `SLPClientCore::Stop`, translated line by line.  When connected it closes
the descriptor and frees the channel and stub; it then always sets
`m_connected = false` and executes `return 0` — i.e. it returns `false` (the
C++ function is declared `bool`). -/
def Stop (st : SLPClientCore) : Bool × SLPClientCore :=
  let st1 : SLPClientCore :=
    if st.m_connected then
      { st with liveChannel := false, liveStub := false }
    else
      st
  (false, { st1 with m_connected := false })

/-- Effect record of issuing one client operation whose request message has
type `Req`: the boolean return value, whether the supplied callback was
deleted without being run, whether it was invoked, and the request message
handed to the stub (if any). -/
structure OpResult (Req : Type) where
  result : Bool
  callbackDeleted : Bool
  callbackInvoked : Bool
  dispatched : Option Req
  deriving Repr

/-- `SLPClientCore::GenericRegisterService`: when disconnected, deletes the
callback and returns false; otherwise builds a `ServiceRegistration` carrying
the url, the scopes in iteration order, the lifetime and the persistent flag,
and hands it to the stub. -/
def GenericRegisterService (st : SLPClientCore) (scopes : List String)
    (service : String) (lifetime : Nat) (persistent : Bool) :
    OpResult ServiceRegistration :=
  if !st.m_connected then
    ⟨false, true, false, none⟩
  else
    ⟨true, false, false, some ⟨service, scopes, lifetime, persistent⟩⟩

/-- `SLPClientCore::RegisterService`: delegates to `GenericRegisterService`
with `persistent = false`. -/
def RegisterService (st : SLPClientCore) (scopes : List String)
    (service : String) (lifetime : Nat) : OpResult ServiceRegistration :=
  GenericRegisterService st scopes service lifetime false

/-- `SLPClientCore::RegisterPersistentService`: delegates to
`GenericRegisterService` with `persistent = true`. -/
def RegisterPersistentService (st : SLPClientCore) (scopes : List String)
    (service : String) (lifetime : Nat) : OpResult ServiceRegistration :=
  GenericRegisterService st scopes service lifetime true

/-- `SLPClientCore::DeRegisterService`: when disconnected, deletes the callback
and returns false; otherwise builds a `ServiceDeRegistration` with url and
scopes and hands it to the stub. -/
def DeRegisterService (st : SLPClientCore) (scopes : List String)
    (service : String) : OpResult ServiceDeRegistration :=
  if !st.m_connected then
    ⟨false, true, false, none⟩
  else
    ⟨true, false, false, some ⟨service, scopes⟩⟩

/-- `SLPClientCore::FindService`: when disconnected, deletes the callback and
returns false; otherwise builds a `ServiceRequest` with service type and
scopes and hands it to the stub. -/
def FindService (st : SLPClientCore) (scopes : List String)
    (service_type : String) : OpResult ServiceRequest :=
  if !st.m_connected then
    ⟨false, true, false, none⟩
  else
    ⟨true, false, false, some ⟨service_type, scopes⟩⟩

/-- The `register_arg` record handed to `SLPClientCore::HandleRegistration`:
the controller outcome (`Failed()` flag with its `ErrorText()`), the decoded
`ServiceAck` reply's `error_code`, and whether the caller supplied a
callback. -/
structure RegisterArg where
  controllerFailed : Bool
  controllerErrorText : String
  replyErrorCode : Nat
  hasCallback : Bool
  deriving Repr, DecidableEq

/-- The `find_arg` record handed to `SLPClientCore::HandleFindRequest`: the
controller outcome and the `ServiceReply`'s repeated `url_entry` field, plus
whether the caller supplied a callback. -/
structure FindArg where
  controllerFailed : Bool
  controllerErrorText : String
  replyUrlEntries : List URLEntry
  hasCallback : Bool
  deriving Repr, DecidableEq

/-- Effect record of one completion handler run: the list of invocations of the
caller's callback (each with its two arguments) and whether `FreeArgs` released
the argument record. -/
structure CompletionEffect (Res : Type) where
  invocations : List (String × Res)
  freed : Bool
  deriving Repr

/-- `SLPClientCore::HandleRegistration`, translated line by line.  `junk` models
the value of the uninitialised local `response_code` on the failure branch
(the C++ declares `uint16_t response_code;` and only assigns it on the
success branch). -/
def HandleRegistration (junk : Nat) (args : RegisterArg) :
    CompletionEffect Nat :=
  if !args.hasCallback then
    ⟨[], true⟩
  else
    let errorString := if args.controllerFailed then args.controllerErrorText else ""
    let responseCode := if args.controllerFailed then junk else args.replyErrorCode
    ⟨[(errorString, responseCode)], true⟩

/-- Decoding of one reply `url_entry` into the domain `SLPService`, as done by
the loop body of `SLPClientCore::HandleFindRequest`. -/
def urlEntryToService (e : URLEntry) : SLPService :=
  ⟨e.url, e.lifetime⟩

/-- `SLPClientCore::HandleFindRequest`, translated line by line: with no
callback it only frees the args; on controller failure it reports the error
text with the (still empty) services vector; otherwise it decodes every
`url_entry` of the reply, in order, into `SLPService` values. -/
def HandleFindRequest (args : FindArg) : CompletionEffect (List SLPService) :=
  if !args.hasCallback then
    ⟨[], true⟩
  else if args.controllerFailed then
    ⟨[(args.controllerErrorText, [])], true⟩
  else
    ⟨[("", args.replyUrlEntries.map urlEntryToService)], true⟩

/-! ## RootEndpoint (command router)

Only the header `RootEndpoint.h` is among the sources, so the router's
behaviour is modelled from the specification (§4.3 of the design document):
dispatch by parameter ID to the four fixed handlers or the unknown-parameter
default, with the broadcast precondition screened centrally before any
handler runs. -/

/-- NACK reason codes used by the modelled router. -/
inductive NackReason where
  | unsupportedParameter
  | unknownParameterData
  | subDeviceOutOfRange
  | unsupportedSetCommand
  deriving Repr, DecidableEq

/-- An RDM response: ACK, ACK with data payload, or NACK with a reason. -/
inductive RDMResponse where
  | ack
  | ackWithData (payload : List Nat)
  | nack (reason : NackReason)
  deriving Repr, DecidableEq

/-- An inbound RDM management request: parameter ID, target sub-device,
broadcast flag, get/set flag and payload bytes. -/
structure RDMRequest where
  paramId : Nat
  subDevice : Nat
  isBroadcast : Bool
  isSet : Bool
  paramData : List Nat
  deriving Repr, DecidableEq

/-- The external endpoint registry (`EndpointManager` collaborator): the known
endpoint identifiers with their identify flags and labels. -/
structure EndpointManager where
  endpoints : List Nat
  identifyFlags : List (Nat × Bool)
  labels : List (Nat × String)
  deriving Repr

/-- Parameter ID handled by `RootEndpoint::HandleEndpointList` (the concrete
code value is immaterial to the claims; only distinctness of the four handled
IDs is used). -/
def PID_ENDPOINT_LIST : Nat := 1

/-- Parameter ID handled by `RootEndpoint::HandleEndpointIdentify`. -/
def PID_ENDPOINT_IDENTIFY : Nat := 2

/-- Parameter ID handled by `RootEndpoint::HandleEndpointLabel`. -/
def PID_ENDPOINT_LABEL : Nat := 3

/-- Parameter ID handled by `RootEndpoint::HandleTCPCommsStatus`. -/
def PID_TCP_COMMS_STATUS : Nat := 4

/-- The reserved sub-device value meaning "all sub-devices" (0xffff in RDM). -/
def ALL_SUB_DEVICES : Nat := 0xffff

/-- Modelled from the spec: the allow-list of parameter IDs permitted to target
the reserved all-sub-devices value (§4.3 step 1).  The spec names no parameter
of this root endpoint as permitted for that addressing (every handler requires
the root sub-device), so the list is empty. -/
def ALL_SUB_DEVICES_ALLOW_LIST : List Nat := []

/-- Modelled from the spec: `RootEndpoint::CheckForBroadcastSubdeviceOrData`
(implementation absent from the sources; only its declaration is).  The
central precondition screen rejects a request before any handler runs when
(a) the request is a broadcast — RDM semantics: a broadcast is never
answered, which subsumes the broadcast-with-payload combination §4.3 lists —
or (b) the request targets the reserved all-sub-devices value with a
parameter outside the allow-list for that addressing; §7 classifies the
latter as its own protocol-validation error, surfaced as a NACK with a
specific (sub-device) reason code.  Returns `some r` when the request is
screened out, where `r` is the argument handed to the continuation (`none`
for a broadcast, the addressing NACK otherwise); returns `none` when the
request passes the screen and may be dispatched. -/
def CheckForBroadcastSubdeviceOrData (req : RDMRequest) :
    Option (Option RDMResponse) :=
  if req.isBroadcast then
    some none
  else if req.subDevice = ALL_SUB_DEVICES ∧
      req.paramId ∉ ALL_SUB_DEVICES_ALLOW_LIST then
    some (some (.nack .subDeviceOutOfRange))
  else
    none

/-- Modelled from the spec: `RootEndpoint::HandleEndpointList` — returns the
endpoints known to the registry; the sub-device index must be root (0) for
this parameter, and it is read-only. -/
def HandleEndpointList (mgr : EndpointManager) (req : RDMRequest) :
    Option RDMResponse :=
  if req.subDevice ≠ 0 then some (.nack .subDeviceOutOfRange)
  else if req.isSet then some (.nack .unsupportedSetCommand)
  else some (.ackWithData mgr.endpoints)

/-- Modelled from the spec: lookup of an endpoint's identify flag in the
registry. -/
def lookupIdentify (mgr : EndpointManager) (id : Nat) : Bool :=
  ((mgr.identifyFlags.find? (fun p => p.1 == id)).map Prod.snd).getD false

/-- Modelled from the spec: `RootEndpoint::HandleEndpointIdentify` — get/set of
the identify flag for one endpoint, validated against the registry's known
endpoint set; an unknown endpoint index is NACKed with an
unknown-parameter-data style status. -/
def HandleEndpointIdentify (mgr : EndpointManager) (req : RDMRequest) :
    Option RDMResponse :=
  let endpointId := req.paramData.headD 0
  if !(mgr.endpoints.contains endpointId) then some (.nack .unknownParameterData)
  else if req.isSet then some .ack
  else some (.ackWithData [if lookupIdentify mgr endpointId then 1 else 0])

/-- Modelled from the spec: lookup of an endpoint's label in the registry. -/
def lookupLabel (mgr : EndpointManager) (id : Nat) : String :=
  ((mgr.labels.find? (fun p => p.1 == id)).map Prod.snd).getD ""

/-- Modelled from the spec: `RootEndpoint::HandleEndpointLabel` — get/set of a
human-readable label for one endpoint, with the same endpoint-existence
validation as identify. -/
def HandleEndpointLabel (mgr : EndpointManager) (req : RDMRequest) :
    Option RDMResponse :=
  let endpointId := req.paramData.headD 0
  if !(mgr.endpoints.contains endpointId) then some (.nack .unknownParameterData)
  else if req.isSet then some .ack
  else some (.ackWithData ((lookupLabel mgr endpointId).toUTF8.toList.map (fun b => b.toNat)))

/-- Modelled from the spec: `RootEndpoint::HandleTCPCommsStatus` — read-only
link statistics; a SET is rejected. -/
def HandleTCPCommsStatus (req : RDMRequest) : Option RDMResponse :=
  if req.isSet then some (.nack .unsupportedSetCommand)
  else some (.ackWithData [])

/-- Modelled from the spec: `RootEndpoint::HandleUnknownPID` — the
default/fallback handler: any parameter ID outside the handled set is NACKed
with the unsupported-parameter status. -/
def HandleUnknownPID (_req : RDMRequest) : Option RDMResponse :=
  some (.nack .unsupportedParameter)

/-- Modelled from the spec: `RootEndpoint::SendRDMRequest` — runs the central
precondition screen first (§4.3 step 1: a screened broadcast yields no
response object, a screened all-sub-devices request yields the addressing
NACK, both before any handler runs), then dispatches by parameter ID to the
fixed handler set, defaulting to `HandleUnknownPID`.  The returned
`Option RDMResponse` is the single argument passed to the continuation;
`none` means no response object is produced. -/
def SendRDMRequest (mgr : EndpointManager) (req : RDMRequest) :
    Option RDMResponse :=
  match CheckForBroadcastSubdeviceOrData req with
  | some screened => screened
  | none =>
  if req.paramId = PID_ENDPOINT_LIST then HandleEndpointList mgr req
  else if req.paramId = PID_ENDPOINT_IDENTIFY then HandleEndpointIdentify mgr req
  else if req.paramId = PID_ENDPOINT_LABEL then HandleEndpointLabel mgr req
  else if req.paramId = PID_TCP_COMMS_STATUS then HandleTCPCommsStatus req
  else HandleUnknownPID req

/-! ## Claim theorems -/

/-- C1: for every completed RPC call (register, deregister, or find — register
and deregister completions share `HandleRegistration`), the completion handler
supplies a non-empty error description when the channel reported failure and
otherwise decodes the reply into the domain result; it invokes the supplied
continuation exactly once with that pair — or not at all when the caller
passed no continuation — and frees the argument record on every path.  The
hypotheses express the channel contract that a failed controller carries a
non-empty error text. -/
theorem completion_runs_once_and_frees (junk : Nat) (ra : RegisterArg) (fa : FindArg)
    (hre : ra.controllerFailed = true → ra.controllerErrorText ≠ "")
    (hfe : fa.controllerFailed = true → fa.controllerErrorText ≠ "") :
    (HandleRegistration junk ra).freed = true ∧
    (HandleFindRequest fa).freed = true ∧
    (ra.hasCallback = false → (HandleRegistration junk ra).invocations = []) ∧
    (fa.hasCallback = false → (HandleFindRequest fa).invocations = []) ∧
    (ra.hasCallback = true →
      (HandleRegistration junk ra).invocations.length = 1 ∧
      ∀ p ∈ (HandleRegistration junk ra).invocations,
        (ra.controllerFailed = true → p.1 ≠ "") ∧
        (ra.controllerFailed = false → p.1 = "" ∧ p.2 = ra.replyErrorCode)) ∧
    (fa.hasCallback = true →
      (HandleFindRequest fa).invocations.length = 1 ∧
      ∀ p ∈ (HandleFindRequest fa).invocations,
        (fa.controllerFailed = true → p.1 ≠ "") ∧
        (fa.controllerFailed = false →
          p.1 = "" ∧ p.2 = fa.replyUrlEntries.map urlEntryToService)) := by
  unfold HandleRegistration HandleFindRequest
  rcases ra with ⟨rf, re, rc, rh⟩
  rcases fa with ⟨ff, fe, fent, fh⟩
  cases rf <;> cases ff <;> cases rh <;> cases fh <;> simp_all

/-- Witness for C1 at concrete inputs: a failed registration completion with a
callback, and a successful find completion with a callback. -/
theorem completion_runs_once_and_frees_w :
    (HandleRegistration 7 ⟨true, "connection refused", 0, true⟩).freed = true ∧
    (HandleFindRequest ⟨false, "", [⟨"service:lamp://1", 60⟩], true⟩).freed = true :=
  ⟨(completion_runs_once_and_frees 7 ⟨true, "connection refused", 0, true⟩
      ⟨false, "", [⟨"service:lamp://1", 60⟩], true⟩
      (fun _ => by decide) (fun h => by cases h)).1,
   (completion_runs_once_and_frees 7 ⟨true, "connection refused", 0, true⟩
      ⟨false, "", [⟨"service:lamp://1", 60⟩], true⟩
      (fun _ => by decide) (fun h => by cases h)).2.1⟩

/-- C2: every operation issued while disconnected (`RegisterService`,
`RegisterPersistentService`, `DeRegisterService`, `FindService`) returns
false, never invokes the supplied continuation, and deletes it rather than
leaking it; nothing is dispatched. -/
theorem disconnected_ops_fail (st : SLPClientCore) (h : st.m_connected = false)
    (scopes : List String) (svc ty url : String) (lt : Nat) :
    RegisterService st scopes svc lt = ⟨false, true, false, none⟩ ∧
    RegisterPersistentService st scopes svc lt = ⟨false, true, false, none⟩ ∧
    DeRegisterService st scopes url = ⟨false, true, false, none⟩ ∧
    FindService st scopes ty = ⟨false, true, false, none⟩ := by
  simp [RegisterService, RegisterPersistentService, GenericRegisterService,
    DeRegisterService, FindService, h]

/-- Witness for C2 on a freshly constructed (disconnected) client. -/
theorem disconnected_ops_fail_w :
    RegisterService SLPClientCore.init ["default"] "service:lamp://x" 300 =
      ⟨false, true, false, none⟩ ∧
    FindService SLPClientCore.init ["default"] "lamp" =
      ⟨false, true, false, none⟩ :=
  ⟨(disconnected_ops_fail SLPClientCore.init rfl ["default"] "service:lamp://x"
      "lamp" "service:lamp://x" 300).1,
   (disconnected_ops_fail SLPClientCore.init rfl ["default"] "service:lamp://x"
      "lamp" "service:lamp://x" 300).2.2.2⟩

/-- C3 (code bug): the claim — and the function's own doc comment,
"@return true on success, false on failure" — says `Stop` returns success
(true); but the function body ends in `return 0`, so `Stop` returns `false`
on every call.  This theorem evaluates the code: for any starting state,
both of two consecutive `Stop` calls leave the client disconnected (that
part of the claim holds) and both return false, contradicting the claim. -/
theorem stop_twice_disconnected_but_returns_false (st : SLPClientCore) :
    (Stop st).1 = false ∧ (Stop st).2.m_connected = false ∧
    (Stop (Stop st).2).1 = false ∧ (Stop (Stop st).2).2.m_connected = false := by
  simp [Stop]

/-- Witness for C3's evaluation theorem at the failing input: a freshly
constructed client. -/
theorem stop_twice_disconnected_but_returns_false_w :
    (Stop SLPClientCore.init).1 = false ∧
    (Stop SLPClientCore.init).2.m_connected = false ∧
    (Stop (Stop SLPClientCore.init).2).1 = false ∧
    (Stop (Stop SLPClientCore.init).2).2.m_connected = false :=
  stop_twice_disconnected_but_returns_false SLPClientCore.init

/-- C4: a successful find completion delivers to the continuation exactly the
reply's url entries, decoded in order with matching URL and lifetime at every
index — same length, no deduplication, no sorting. -/
theorem find_reply_order_preserved (fa : FindArg)
    (hcb : fa.hasCallback = true) (hok : fa.controllerFailed = false) :
    ∃ services,
      (HandleFindRequest fa).invocations = [("", services)] ∧
      services.length = fa.replyUrlEntries.length ∧
      (∀ i, (services.get? i).map SLPService.url =
        (fa.replyUrlEntries.get? i).map URLEntry.url) ∧
      (∀ i, (services.get? i).map SLPService.lifetime =
        (fa.replyUrlEntries.get? i).map URLEntry.lifetime) := by
  refine ⟨fa.replyUrlEntries.map urlEntryToService, ?_, by simp, ?_, ?_⟩
  · simp [HandleFindRequest, hcb, hok]
  · intro i
    rw [List.get?_eq_getElem?, List.get?_eq_getElem?, List.getElem?_map]
    cases fa.replyUrlEntries[i]? <;> simp [urlEntryToService]
  · intro i
    rw [List.get?_eq_getElem?, List.get?_eq_getElem?, List.getElem?_map]
    cases fa.replyUrlEntries[i]? <;> simp [urlEntryToService]

/-- Witness for C4 at the spec's round-trip reply:
entries [{url: service:lamp://1, lifetime: 60}, {url: service:lamp://2,
lifetime: 30}]. -/
theorem find_reply_order_preserved_w :
    ∃ services,
      (HandleFindRequest ⟨false, "",
        [⟨"service:lamp://1", 60⟩, ⟨"service:lamp://2", 30⟩], true⟩).invocations =
        [("", services)] ∧
      services.length =
        (FindArg.replyUrlEntries ⟨false, "",
          [⟨"service:lamp://1", 60⟩, ⟨"service:lamp://2", 30⟩], true⟩).length ∧
      (∀ i, (services.get? i).map SLPService.url =
        ((FindArg.replyUrlEntries ⟨false, "",
          [⟨"service:lamp://1", 60⟩, ⟨"service:lamp://2", 30⟩], true⟩).get? i).map
          URLEntry.url) ∧
      (∀ i, (services.get? i).map SLPService.lifetime =
        ((FindArg.replyUrlEntries ⟨false, "",
          [⟨"service:lamp://1", 60⟩, ⟨"service:lamp://2", 30⟩], true⟩).get? i).map
          URLEntry.lifetime) :=
  find_reply_order_preserved
    ⟨false, "", [⟨"service:lamp://1", 60⟩, ⟨"service:lamp://2", 30⟩], true⟩ rfl rfl

/-- C5: on a connected client a register operation dispatches a
`ServiceRegistration` carrying exactly the caller's URL, scopes and lifetime,
with persistent = false for `RegisterService` and persistent = true for
`RegisterPersistentService`. -/
theorem register_dispatches_exact_request (st : SLPClientCore)
    (h : st.m_connected = true) (scopes : List String) (svc : String) (lt : Nat) :
    (RegisterService st scopes svc lt).dispatched =
      some ⟨svc, scopes, lt, false⟩ ∧
    (RegisterPersistentService st scopes svc lt).dispatched =
      some ⟨svc, scopes, lt, true⟩ := by
  simp [RegisterService, RegisterPersistentService, GenericRegisterService, h]

/-- Witness for C5 at the spec's scenario: scopes = [default],
url = service:lamp://x, lifetime = 300, on a connected client. -/
theorem register_dispatches_exact_request_w :
    (RegisterService ⟨true, true, true, true, true⟩ ["default"]
      "service:lamp://x" 300).dispatched =
      some ⟨"service:lamp://x", ["default"], 300, false⟩ ∧
    (RegisterPersistentService ⟨true, true, true, true, true⟩ ["default"]
      "service:lamp://x" 300).dispatched =
      some ⟨"service:lamp://x", ["default"], 300, true⟩ :=
  register_dispatches_exact_request ⟨true, true, true, true, true⟩ rfl
    ["default"] "service:lamp://x" 300

/-- C6: a broadcast request never produces a response object, regardless of
parameter ID: the broadcast-suppression path yields `none` for the
continuation. -/
theorem broadcast_never_produces_response (mgr : EndpointManager)
    (req : RDMRequest) (h : req.isBroadcast = true) :
    SendRDMRequest mgr req = none := by
  simp [SendRDMRequest, CheckForBroadcastSubdeviceOrData, h]

/-- Witness for C6: a broadcast request with an arbitrary (here: unknown)
parameter ID against an empty registry. -/
theorem broadcast_never_produces_response_w :
    SendRDMRequest ⟨[], [], []⟩ ⟨999, 0, true, false, []⟩ = none :=
  broadcast_never_produces_response ⟨[], [], []⟩ ⟨999, 0, true, false, []⟩ rfl

/-- C7 counterexample: the claim as stated fails at a non-broadcast request
that targets the reserved all-sub-devices value with an unhandled parameter
ID (999): the router's precondition screen rejects it before any handler
runs and answers with the all-sub-devices addressing NACK, not the
unsupported-parameter NACK the claim asserts. -/
theorem unknown_pid_all_subdevices_cex :
    SendRDMRequest ⟨[0], [], []⟩ ⟨999, ALL_SUB_DEVICES, false, false, []⟩ ≠
      some (RDMResponse.nack NackReason.unsupportedParameter) ∧
    SendRDMRequest ⟨[0], [], []⟩ ⟨999, ALL_SUB_DEVICES, false, false, []⟩ =
      some (RDMResponse.nack NackReason.subDeviceOutOfRange) := by
  constructor <;>
    simp [SendRDMRequest, CheckForBroadcastSubdeviceOrData,
      ALL_SUB_DEVICES_ALLOW_LIST]

/-- C7 (amended): a non-broadcast request that does not target the reserved
all-sub-devices value and whose parameter ID is outside the handled set
(endpoint list, endpoint identify, endpoint label, TCP communication status)
reaches the default unknown-parameter handler and yields exactly one NACK
with the unsupported-parameter status. -/
theorem unknown_pid_yields_unsupported_nack (mgr : EndpointManager)
    (req : RDMRequest) (hb : req.isBroadcast = false)
    (hs : req.subDevice ≠ ALL_SUB_DEVICES)
    (h1 : req.paramId ≠ PID_ENDPOINT_LIST)
    (h2 : req.paramId ≠ PID_ENDPOINT_IDENTIFY)
    (h3 : req.paramId ≠ PID_ENDPOINT_LABEL)
    (h4 : req.paramId ≠ PID_TCP_COMMS_STATUS) :
    SendRDMRequest mgr req =
      some (RDMResponse.nack NackReason.unsupportedParameter) := by
  simp [SendRDMRequest, CheckForBroadcastSubdeviceOrData, HandleUnknownPID,
    hb, hs, h1, h2, h3, h4]

/-- Witness for C7 (amended): a non-broadcast request addressed to the root
sub-device with parameter ID 999. -/
theorem unknown_pid_yields_unsupported_nack_w :
    SendRDMRequest ⟨[0], [], []⟩ ⟨999, 0, false, false, []⟩ =
      some (RDMResponse.nack NackReason.unsupportedParameter) :=
  unknown_pid_yields_unsupported_nack ⟨[0], [], []⟩ ⟨999, 0, false, false, []⟩
    rfl (by decide) (by decide) (by decide) (by decide) (by decide)

/-- C8: `Setup` called while connected returns false; otherwise a successful
`Setup` transitions the client from disconnected to connected. -/
theorem setup_fails_when_connected (st : SLPClientCore) (chOk stOk : Bool) :
    (st.m_connected = true → (Setup st chOk stOk).1 = false) ∧
    (st.m_connected = false → (Setup st chOk stOk).1 = true →
      (Setup st chOk stOk).2.m_connected = true) := by
  unfold Setup
  cases hst : st.m_connected <;> cases chOk <;> cases stOk <;> simp_all

/-- Witness for C8: a successful `Setup` on a fresh client connects it, and
`Setup` on an already-connected client returns false. -/
theorem setup_fails_when_connected_w :
    (Setup SLPClientCore.init true true).2.m_connected = true ∧
    (Setup ⟨true, true, true, true, true⟩ true true).1 = false :=
  ⟨(setup_fails_when_connected SLPClientCore.init true true).2 rfl rfl,
   (setup_fails_when_connected ⟨true, true, true, true, true⟩ true true).1 rfl⟩

/-- C9: every `Setup` that returns false leaves the connection state unchanged,
and — starting from a disconnected client holding no live channel or stub —
a failing `Setup` frees the partially-allocated channel, so it leaves no live
channel or stub behind. -/
theorem setup_atomic_on_failure (st : SLPClientCore) (chOk stOk : Bool)
    (hfail : (Setup st chOk stOk).1 = false) :
    (Setup st chOk stOk).2.m_connected = st.m_connected ∧
    (st.m_connected = false → st.liveChannel = false → st.liveStub = false →
      (Setup st chOk stOk).2.liveChannel = false ∧
      (Setup st chOk stOk).2.liveStub = false) := by
  unfold Setup at hfail ⊢
  cases hst : st.m_connected <;> cases chOk <;> cases stOk <;> simp_all

/-- Witness for C9: stub allocation fails on a fresh client — the channel
allocated moments earlier is freed and the client stays disconnected. -/
theorem setup_atomic_on_failure_w :
    (Setup SLPClientCore.init true false).2.m_connected =
      SLPClientCore.init.m_connected ∧
    ((Setup SLPClientCore.init true false).2.liveChannel = false ∧
     (Setup SLPClientCore.init true false).2.liveStub = false) :=
  ⟨(setup_atomic_on_failure SLPClientCore.init true false rfl).1,
   (setup_atomic_on_failure SLPClientCore.init true false rfl).2 rfl rfl rfl⟩

/-- C10: when the channel reports failure for a find operation, the
continuation receives the channel's error text together with the empty
service list — no reply entries are decoded. -/
theorem find_failure_delivers_empty_services (fa : FindArg)
    (hcb : fa.hasCallback = true) (hf : fa.controllerFailed = true) :
    (HandleFindRequest fa).invocations = [(fa.controllerErrorText, [])] := by
  simp [HandleFindRequest, hcb, hf]

/-- Witness for C10: a failed find completion whose reply (never decoded)
contains an entry. -/
theorem find_failure_delivers_empty_services_w :
    (HandleFindRequest ⟨true, "connection reset",
      [⟨"service:lamp://1", 60⟩], true⟩).invocations =
      [("connection reset", ([] : List SLPService))] :=
  find_failure_delivers_empty_services
    ⟨true, "connection reset", [⟨"service:lamp://1", 60⟩], true⟩ rfl rfl

end OlaSpec
